import Mathlib

/-!
Verification of the PCB placement-checking core of this repository
(files pcb_utility.py and pcb_tool_check.py), shallowly embedded in Lean.

Conventions of the embedding:
* All coordinates, sizes and angles are rationals, in millimetres and
  degrees.  The source converts between board-internal integer units and
  millimetres through the external CAD engine (pcbnew.ToMM / FromMM); per
  the data model every quantity here is held in the single canonical unit
  (mm), so ToMM / FromMM are the identity and do not appear.
* Python exceptions are modelled by Except String: a code path on which
  the source raises (or catches and returns an error string) becomes
  Except.error of a fixed marker string.  The exact Python message text
  is environment-dependent and is not modelled; only which paths fail and
  which succeed is.
* The source compares Euclidean distances obtained with ** 0.5; the
  embedding stores squared distances and compares those.  Square root is
  strictly monotone on nonnegative reals, so the comparisons agree; the
  bridge is proved where a claim speaks of Euclidean distance.
-/

namespace PCBCheck

/-- Axis-aligned rectangle, the embedding of pcbnew.BOX2I: an origin
(minimum corner) and a size, as in the CAD engine.  Units are mm. -/
structure Rect where
  x : ℚ
  y : ℚ
  w : ℚ
  h : ℚ
  deriving DecidableEq, Repr

/-- Embedding of BOX2I.Contains(BOX2I): both corners of the inner box lie
inside the outer box, bounds inclusive. -/
def Rect.contains (outer inner : Rect) : Bool :=
  decide (outer.x ≤ inner.x) && decide (inner.x + inner.w ≤ outer.x + outer.w) &&
  decide (outer.y ≤ inner.y) && decide (inner.y + inner.h ≤ outer.y + outer.h)

/-- Embedding of BOX2I.Intersects: the extents overlap on both axes,
touching edges counting as intersecting. -/
def Rect.intersects (a b : Rect) : Bool :=
  decide (max a.x b.x ≤ min (a.x + a.w) (b.x + b.w)) &&
  decide (max a.y b.y ≤ min (a.y + a.h) (b.y + b.h))

/-- Embedding of BOX2I.Inflate(d): expand by d on every side. -/
def Rect.inflate (r : Rect) (d : ℚ) : Rect :=
  { x := r.x - d, y := r.y - d, w := r.w + 2 * d, h := r.h + 2 * d }

/-- Embedding of BOX2I.Merge: the bounding box of the union. -/
def Rect.merge (a b : Rect) : Rect :=
  { x := min a.x b.x
    y := min a.y b.y
    w := max (a.x + a.w) (b.x + b.w) - min a.x b.x
    h := max (a.y + a.h) (b.y + b.h) - min a.y b.y }

/-- The board layers the checked code distinguishes (pcbnew layer ids
F_CrtYd, B_CrtYd, Edge_Cuts, User_1 .. User_4); every other layer is
`other`. -/
inductive Layer where
  | fCrtYd
  | bCrtYd
  | edgeCuts
  | user1
  | user2
  | user3
  | user4
  | other
  deriving DecidableEq, Repr

/-- A graphical item of a footprint: its layer and the bounding box the
CAD engine reports for it (GetBoundingBox, board frame, mm). -/
structure FpGraphic where
  layer : Layer
  bbox : Rect
  deriving DecidableEq, Repr

/-- The kind of a board drawing, the embedding of the source dynamic type
check isinstance(item, (pcbnew.PCB_SHAPE, pcbnew.PCB_TEXT)); shapes carry
GetShapeStr(). -/
inductive DrawKind where
  | shape (shapeStr : String)
  | text
  | other
  deriving DecidableEq, Repr

/-- A drawing of the board (board.GetDrawings() item): layer, kind,
bounding box and position. -/
structure BoardGraphic where
  layer : Layer
  kind : DrawKind
  bbox : Rect
  posX : ℚ
  posY : ℚ
  deriving DecidableEq, Repr

/-- A pad of a footprint: number (GetNumber), position in mm
(GetPosition), net name (GetNetname, empty when unconnected) and net code
(GetNetCode). -/
structure Pad where
  number : String
  posX : ℚ
  posY : ℚ
  netName : String
  netCode : ℤ
  deriving DecidableEq, Repr

/-- A footprint: reference designator, position in mm, orientation in
degrees as stored by the CAD engine, lock flag, graphical items and pads.
The engine stores the orientation normalized to the interval
(-180, 180] (EDA_ANGLE.Normalize180, applied by FOOTPRINT.SetOrientation),
which is why a request of 270 degrees is held as -90. -/
structure Footprint where
  reference : String
  posX : ℚ
  posY : ℚ
  orientation : ℚ
  locked : Bool
  graphics : List FpGraphic
  pads : List Pad
  deriving DecidableEq, Repr

/-- A net of the board: name and numeric code. -/
structure Net where
  name : String
  code : ℤ
  deriving DecidableEq, Repr

/-- The board document: footprints, drawings, nets, and the bounding box
that BOARD.ComputeBoundingBox() reports (delegated to the CAD engine,
held here as given data, in mm). -/
structure Board where
  footprints : List Footprint
  drawings : List BoardGraphic
  nets : List Net
  boundingBox : Rect
  deriving DecidableEq, Repr

/-- Embedding of BOARD.FindNet: the first net with the given name. -/
def Board.findNet (b : Board) (name : String) : Option Net :=
  b.nets.find? (fun n => n.name = name)

/-- Embedding of BOARD.FindFootprintByReference: the first footprint with
the given reference. -/
def Board.findFootprintByReference (b : Board) (ref : String) : Option Footprint :=
  b.footprints.find? (fun f => f.reference = ref)

/-- Normalization of an angle in degrees to the interval (-180, 180],
the embedding of EDA_ANGLE.Normalize180 which FOOTPRINT.SetOrientation
applies to every stored orientation. -/
def normalize180 (a : ℚ) : ℚ :=
  a - 360 * ⌈(a - 180) / 360⌉

/-- Embedding of FOOTPRINT.SetOrientationDegrees: store the requested
angle normalized to (-180, 180].  The accompanying rotation of pads and
graphics is performed inside the CAD engine and is outside the scope of
this model; the checked code reads the orientation field modelled here. -/
def setOrientationDegrees (m : Footprint) (a : ℚ) : Footprint :=
  { m with orientation := normalize180 a }

/-- Embedding of get_footprint_courtyard (pcb_utility.py, lines 5-17):
fold over the graphical items, merging the bounding boxes of those on a
courtyard layer; None when there is no courtyard graphic. -/
def get_footprint_courtyard (m : Footprint) : Option Rect :=
  m.graphics.foldl
    (fun acc g =>
      if g.layer = Layer.fCrtYd ∨ g.layer = Layer.bCrtYd then
        match acc with
        | none => some g.bbox
        | some r => some (r.merge g.bbox)
      else acc)
    none

/-- Embedding of get_footprint_size (pcb_utility.py, lines 19-31): the
courtyard size, swapped when the stored orientation is exactly 90 or -90
degrees (the source test angle_degrees == 90 or angle_degrees == -90);
(None, None) when the courtyard is undefined, modelled as none. -/
def get_footprint_size (m : Footprint) : Option (ℚ × ℚ) :=
  match get_footprint_courtyard m with
  | some r =>
      if m.orientation = 90 ∨ m.orientation = -90 then some (r.h, r.w)
      else some (r.w, r.h)
  | none => none

/-- Embedding of get_board_courtyard (pcb_utility.py, lines 33-45): merge
the bounding boxes of the drawings on the Edge_Cuts layer; None when
there are none. -/
def get_board_courtyard (b : Board) : Option Rect :=
  b.drawings.foldl
    (fun acc g =>
      if g.layer = Layer.edgeCuts then
        match acc with
        | none => some g.bbox
        | some r => some (r.merge g.bbox)
      else acc)
    none

/-- A pad-to-pad connection segment, the embedding of the 5-tuples
(x1, y1, x2, y2, net_name) that check_pad2pad_connection builds and
check_segments_intersect consumes. -/
structure Seg where
  x1 : ℚ
  y1 : ℚ
  x2 : ℚ
  y2 : ℚ
  net : String
  deriving DecidableEq, Repr

/-- Embedding of the inner helper ccw of check_segments_intersect
(pcb_utility.py, lines 82-83): the strict orientation test. -/
def ccw (ax ay bx bY cx cy : ℚ) : Bool :=
  decide ((cy - ay) * (bx - ax) > (bY - ay) * (cx - ax))

/-- Embedding of the inner helper check_two_segments (pcb_utility.py,
lines 85-87): the CCW proper-intersection test. -/
def check_two_segments (x1 y1 x2 y2 x3 y3 x4 y4 : ℚ) : Bool :=
  (ccw x1 y1 x3 y3 x4 y4 != ccw x2 y2 x3 y3 x4 y4) &&
  (ccw x1 y1 x2 y2 x3 y3 != ccw x1 y1 x2 y2 x4 y4)

/-- Embedding of check_segments_intersect (pcb_utility.py, lines 80-109):
the double loop for i in range(n), for j in range(i+1, n), skipping
same-net pairs, appending (i, j, net_i, net_j) when the two segments pass
the proper-intersection test. -/
def check_segments_intersect (segments : List Seg) : List (ℕ × ℕ × String × String) :=
  let n := segments.length
  if n < 2 then []
  else
    (List.range n).flatMap fun i =>
      (List.range' (i + 1) (n - (i + 1))).filterMap fun j =>
        match segments[i]?, segments[j]? with
        | some seg1, some seg2 =>
          if seg1.net = seg2.net then none
          else if check_two_segments seg1.x1 seg1.y1 seg1.x2 seg1.y2 seg2.x1 seg2.y1 seg2.x2 seg2.y2
          then some (i, j, seg1.net, seg2.net)
          else none
        | _, _ => none

/-- The i-strictly-below-j double loop shared by check_segments_intersect
and check_board_clearance_violations: for i in range(n), for j in
range(i+1, n), collect the hits of f. -/
def pairLoop {α : Type} (n : ℕ) (f : ℕ → ℕ → Option α) : List α :=
  (List.range n).flatMap fun i =>
    (List.range' (i + 1) (n - (i + 1))).filterMap fun j => f i j

/-- A clearance violation: both references together with the sizes and
positions the source message interpolates (2-decimal text rendering not
modelled). -/
structure ClearanceViolation where
  ref1 : String
  ref2 : String
  size1w : ℚ
  size1h : ℚ
  pos1x : ℚ
  pos1y : ℚ
  size2w : ℚ
  size2h : ℚ
  pos2x : ℚ
  pos2y : ℚ
  deriving DecidableEq, Repr

/-- The data of the violation message of check_board_clearance_violations
(pcb_tool_check.py, line 75). -/
def mkClearanceViolation (mod1 mod2 : Footprint) (bbox1 bbox2 : Rect) : ClearanceViolation :=
  { ref1 := mod1.reference, ref2 := mod2.reference
    size1w := bbox1.w, size1h := bbox1.h, pos1x := mod1.posX, pos1y := mod1.posY
    size2w := bbox2.w, size2h := bbox2.h, pos2x := mod2.posX, pos2y := mod2.posY }

/-- Marker for the error list the blanket except handler of
check_board_clearance_violations returns: a footprint without courtyard
graphics makes get_footprint_courtyard return None, the subsequent
attribute access raises, and the handler discards every accumulated
violation. -/
def clearanceExceptionMsg : String := "Error: Failed to check clearance violations"

/-- Embedding of check_board_clearance_violations (pcb_tool_check.py,
lines 47-82).  The source walks for i, mod1 in enumerate(modules) and
mod2 in modules[i+1:], inflating the courtyard of mod1 by the clearance
(default 0.2 when None) and testing intersection against the un-inflated
courtyard of mod2.  Any footprint with an undefined courtyard raises on
the code path (None has no GetPosition / Intersects argument conversion
fails), and the blanket except returns the error list instead, dropping
all accumulated violations; that is modelled by the definedness guard. -/
def check_board_clearance_violations (board : Board) (minClearance : Option ℚ) :
    Except String (List ClearanceViolation) :=
  let mc := minClearance.getD 0.2
  let modules := board.footprints
  if modules.all (fun m => (get_footprint_courtyard m).isSome) then
    Except.ok (pairLoop modules.length fun i j =>
      match modules[i]?, modules[j]? with
      | some mod1, some mod2 =>
        match get_footprint_courtyard mod1, get_footprint_courtyard mod2 with
        | some bbox1, some bbox2 =>
          if (bbox1.inflate mc).intersects bbox2 then
            some (mkClearanceViolation mod1 mod2 bbox1 bbox2)
          else none
        | _, _ => none
      | _, _ => none)
  else Except.error clearanceExceptionMsg

/-- An alignment tuple of check_pad2pad_connection: the source appends
(pad_num, mod1_reference, pad_i_num, module_i_ref, net_name). -/
structure AlignEntry where
  padNum : String
  modRef : String
  padiNum : String
  modiRef : String
  netName : String
  deriving DecidableEq, Repr

/-- Squared module-center-to-module-center distance in mm.  The source
computes the distance itself with ** 0.5; the square is stored here and
the comparison against the likewise-squared pad distance is equivalent
because the square root is strictly monotone on nonnegative reals (the
bridge is part of the C3 theorem). -/
def mod2modSq (mod1 modi : Footprint) : ℚ :=
  (mod1.posX - modi.posX) ^ 2 + (mod1.posY - modi.posY) ^ 2

/-- Squared pad-to-pad distance in mm; see mod2modSq for the convention. -/
def pad2padSq (pad padi : Pad) : ℚ :=
  (pad.posX - padi.posX) ^ 2 + (pad.posY - padi.posY) ^ 2

/-- The alignment flag of check_pad2pad_connection (pcb_tool_check.py,
lines 169-170): flagged exactly when the pad-to-pad distance strictly
exceeds the module-to-module distance, compared here on the squares. -/
def alignOf (mod1 : Footprint) (pad : Pad) (modi : Footprint) (padi : Pad) : Option AlignEntry :=
  if pad2padSq pad padi > mod2modSq mod1 modi then
    some { padNum := pad.number, modRef := mod1.reference, padiNum := padi.number
           modiRef := modi.reference, netName := pad.netName }
  else none

/-- One iteration of the innermost loop body of check_pad2pad_connection:
the optional alignment flag and the segment appended for a matching pad
pair (pcb_tool_check.py, lines 151-172). -/
def connEntry (mod1 : Footprint) (pad : Pad) (modi : Footprint) (padi : Pad) :
    Option AlignEntry × Seg :=
  (alignOf mod1 pad modi padi,
   { x1 := pad.posX, y1 := pad.posY, x2 := padi.posX, y2 := padi.posY, net := pad.netName })

/-- The entries one pad of the target contributes: every pad of every
other, unlocked footprint whose net code equals the code of the net the
board resolves for the pad name (pcb_tool_check.py, lines 145-172). -/
def padConnections (board : Board) (mod1 : Footprint) (pad : Pad) (net : Net) :
    List (Option AlignEntry × Seg) :=
  board.footprints.flatMap fun modi =>
    if modi.reference ≠ mod1.reference ∧ modi.locked = false then
      modi.pads.filterMap fun padi =>
        if padi.netCode = net.code then some (connEntry mod1 pad modi padi) else none
    else []

/-- Marker for the exception propagating out of check_pad2pad_connection
when board.FindNet returns None and the source dereferences it
(GetNetCode on None); the function has no handler, so the error escapes. -/
def netLookupErrorMsg : String := "AttributeError: FindNet returned None"

/-- The outer pad loop of check_pad2pad_connection: pads with an empty
net name or net GND are passed over, every other pad resolves its net on
the board and contributes its padConnections in order. -/
def pad2padLoop (board : Board) (mod1 : Footprint) :
    List Pad → Except String (List (Option AlignEntry × Seg))
  | [] => Except.ok []
  | pad :: rest =>
    if pad.netName ≠ "" ∧ pad.netName ≠ "GND" then
      match board.findNet pad.netName with
      | none => Except.error netLookupErrorMsg
      | some net =>
        match pad2padLoop board mod1 rest with
        | Except.error e => Except.error e
        | Except.ok tail => Except.ok (padConnections board mod1 pad net ++ tail)
    else pad2padLoop board mod1 rest

/-- The full connection list of check_pad2pad_connection for the target
footprint (its alignment flags paired with its segments, in source
append order). -/
def pad2pad_connections (board : Board) (mod1 : Footprint) :
    Except String (List (Option AlignEntry × Seg)) :=
  pad2padLoop board mod1 mod1.pads

/-- Embedding of check_pad2pad_connection (pcb_tool_check.py, lines
131-181): returns the alignment list and the intersection result of the
collected segments.  The textual distance report the source also returns
is presentation only and is not modelled. -/
def check_pad2pad_connection (board : Board) (mod1 : Footprint) :
    Except String (List AlignEntry × List (ℕ × ℕ × String × String)) :=
  match pad2pad_connections board mod1 with
  | Except.error e => Except.error e
  | Except.ok conns =>
      Except.ok (conns.filterMap Prod.fst, check_segments_intersect (conns.map Prod.snd))

/-- Marker for the AttributeError escaping check_module_clearance when a
courtyard resolves to None (the function has no handler, the caller
check_module_status_by_angles none either). -/
def clearanceAttrErrorMsg : String := "AttributeError: NoneType courtyard"

/-- Marker for the AttributeError raised when
FindFootprintByReference returns None and SetOrientationDegrees is
called on it. -/
def findFootprintErrorMsg : String := "AttributeError: footprint not found"

/-- The inner loop of check_module_clearance (pcb_tool_check.py, lines
119-126): walk all footprints, skip the one whose reference equals the
target, and collect the references whose courtyard intersects the
inflated target courtyard; a None courtyard raises. -/
def overlapLoop (expanded : Rect) (mod1 : Footprint) :
    List Footprint → Except String (List String)
  | [] => Except.ok []
  | mod2 :: rest =>
    if mod2.reference = mod1.reference then overlapLoop expanded mod1 rest
    else
      match get_footprint_courtyard mod2 with
      | none => Except.error clearanceAttrErrorMsg
      | some bbox2 =>
        match overlapLoop expanded mod1 rest with
        | Except.error e => Except.error e
        | Except.ok tail =>
          if expanded.intersects bbox2 then Except.ok (mod2.reference :: tail)
          else Except.ok tail

/-- Embedding of check_module_clearance (pcb_tool_check.py, lines
111-128): inflate the courtyard of the target by the clearance and
return the references of all other footprints whose courtyard intersects
it. -/
def check_module_clearance (board : Board) (mod1 : Footprint) (minClearance : ℚ) :
    Except String (List String) :=
  match get_footprint_courtyard mod1 with
  | none => Except.error clearanceAttrErrorMsg
  | some bbox1 => overlapLoop (bbox1.inflate minClearance) mod1 board.footprints

/-- Severity tag of one finding line of check_module_status_by_angles. -/
inductive Severity where
  | error
  | warning
  | info
  deriving DecidableEq, Repr

/-- One per-angle finding of check_module_status_by_angles: the angle
tested and the single severity its message line is tagged with. -/
structure Finding where
  angle : ℚ
  severity : Severity
  deriving DecidableEq, Repr

/-- Replace the first footprint carrying the reference with its
reoriented copy, the embedding of mutating the object that
FindFootprintByReference returned. -/
def updateFirstOrientation (ref : String) (a : ℚ) : List Footprint → List Footprint
  | [] => []
  | f :: rest =>
    if f.reference = ref then setOrientationDegrees f a :: rest
    else f :: updateFirstOrientation ref a rest

/-- The board after mod1.SetOrientationDegrees(angle): only the first
footprint with the reference changes, and only its orientation field. -/
def Board.setFootprintOrientation (b : Board) (ref : String) (a : ℚ) : Board :=
  { b with footprints := updateFirstOrientation ref a b.footprints }

/-- One iteration of the angle loop of check_module_status_by_angles
(pcb_tool_check.py, lines 191-215): set the orientation on the live
board, rerun the clearance and connectivity checks, and classify the
finding: ERROR when any overlap exists, else WARNING when alignment
flags exist, else WARNING when intersecting pairs exist, else INFO. -/
def sweepStep (moduleRef : String) (minClearance : ℚ) (board : Board) (angle : ℚ) :
    Except String (Board × Finding × List (ℕ × ℕ × String × String)) :=
  match (board.setFootprintOrientation moduleRef angle).findFootprintByReference moduleRef with
  | none => Except.error findFootprintErrorMsg
  | some mod1 =>
    match check_module_clearance (board.setFootprintOrientation moduleRef angle) mod1
        minClearance with
    | Except.error e => Except.error e
    | Except.ok overlapped =>
      match check_pad2pad_connection (board.setFootprintOrientation moduleRef angle) mod1 with
      | Except.error e => Except.error e
      | Except.ok (alignment, intersect) =>
        Except.ok (board.setFootprintOrientation moduleRef angle,
          { angle := angle
            severity :=
              if overlapped ≠ [] then Severity.error
              else if alignment ≠ [] then Severity.warning
              else if intersect ≠ [] then Severity.warning
              else Severity.info },
          intersect)

/-- The angle loop: findings accumulate in order, the intersect list of
each iteration overwrites the previous one (the source variable named
intersect), and the last one survives the loop. -/
def sweepAngles (moduleRef : String) (minClearance : ℚ) :
    List ℚ → Board → List Finding → List (ℕ × ℕ × String × String) →
    Except String (List Finding × List (ℕ × ℕ × String × String) × Board)
  | [], board, findings, lastIntersect => Except.ok (findings, lastIntersect, board)
  | angle :: rest, board, findings, _lastIntersect =>
    match sweepStep moduleRef minClearance board angle with
    | Except.error e => Except.error e
    | Except.ok (board2, finding, intersect) =>
      sweepAngles moduleRef minClearance rest board2 (findings ++ [finding]) intersect

/-- Embedding of check_module_status_by_angles (pcb_tool_check.py, lines
184-221): default the clearance to 0.2, sweep the fixed angle sequence
[0, 90, 180, 270], and after the sweep emit one trailing warning pair of
net names per entry of the last intersect list (the source loop after
the angle loop).  The unused file_path / position arguments of the
source signature carry no behavior and are dropped; the findings stand
for the per-angle message lines. -/
def check_module_status_by_angles (board : Board) (moduleRef : String)
    (minClearance : Option ℚ) :
    Except String (List Finding × List (String × String) × Board) :=
  let mc := minClearance.getD 0.2
  match sweepAngles moduleRef mc [0, 90, 180, 270] board [] [] with
  | Except.error e => Except.error e
  | Except.ok (findings, lastIntersect, board2) =>
    Except.ok (findings, lastIntersect.map (fun e => (e.2.2.1, e.2.2.2)), board2)

/-- An on-board violation: what the message lines of
check_board_onboard_violations interpolate (reference or drawing-kind
label, size and position in mm; the 2-decimal text rendering is not
modelled). -/
inductive OnboardViolation where
  | footprint (ref : String) (sizeW sizeH posX posY : ℚ)
  | drawing (label : String) (sizeW sizeH posX posY : ℚ)
  deriving DecidableEq, Repr

/-- Marker for the AttributeError branch of
check_board_onboard_violations: a board without Edge_Cuts drawings makes
get_board_courtyard return None and the Contains call on it raises
AttributeError, caught by the first handler. -/
def onboardAttrErrorMsg : String := "Error: Invalid board object or missing method"

/-- Marker for the blanket except branch of
check_board_onboard_violations: a footprint without courtyard graphics
makes get_footprint_courtyard return None, and passing None to
BOX2I.Contains raises (a non-AttributeError), caught by the second
handler, which discards every accumulated violation. -/
def onboardNoneCourtyardMsg : String := "Error: Failed to check on-board violations"

/-- The footprint loop of check_board_onboard_violations
(pcb_tool_check.py, lines 15-22): emit a violation for every footprint
whose courtyard is not contained in the board outline; a None courtyard
raises out of the loop. -/
def onboardFootprintLoop (boardCy : Rect) : List Footprint → Except String (List OnboardViolation)
  | [] => Except.ok []
  | m :: rest =>
    match get_footprint_courtyard m with
    | none => Except.error onboardNoneCourtyardMsg
    | some cy =>
      match onboardFootprintLoop boardCy rest with
      | Except.error e => Except.error e
      | Except.ok tail =>
        if boardCy.contains cy then Except.ok tail
        else Except.ok (OnboardViolation.footprint m.reference cy.w cy.h m.posX m.posY :: tail)

/-- The drawings loop of check_board_onboard_violations
(pcb_tool_check.py, lines 24-38): shapes and texts on the four user
layers not contained in the outline.  The source label branch for other
drawing kinds is unreachable after the isinstance filter and is kept in
the label match. -/
def onboardDrawingViolations (boardCy : Rect) (ds : List BoardGraphic) : List OnboardViolation :=
  ds.filterMap fun item =>
    match item.kind with
    | DrawKind.other => none
    | k =>
      if item.layer = Layer.user1 ∨ item.layer = Layer.user2 ∨ item.layer = Layer.user3 ∨
          item.layer = Layer.user4 then
        if boardCy.contains item.bbox then none
        else some (OnboardViolation.drawing
          (match k with
           | DrawKind.shape s => "Shape (" ++ s ++ ")"
           | DrawKind.text => "Text"
           | DrawKind.other => "Drawing")
          item.bbox.w item.bbox.h item.posX item.posY)
      else none

/-- Embedding of check_board_onboard_violations (pcb_tool_check.py,
lines 7-44). -/
def check_board_onboard_violations (board : Board) : Except String (List OnboardViolation) :=
  match get_board_courtyard board with
  | none => Except.error onboardAttrErrorMsg
  | some boardCy =>
    match onboardFootprintLoop boardCy board.footprints with
    | Except.error e => Except.error e
    | Except.ok fpV => Except.ok (fpV ++ onboardDrawingViolations boardCy board.drawings)

/-- The structured content of the report string calculate_power_density
interpolates (2-decimal rendering not modelled). -/
structure DensityReport where
  footprintArea : ℚ
  boardArea : ℚ
  powerDensity : ℚ
  info : String
  deriving DecidableEq, Repr

/-- The loose-placement warning text of calculate_power_density. -/
def looseMsg : String :=
  "Warning: modules are placed too loosely, please adjust the model close to each other!"

/-- The appropriate-placement text of calculate_power_density. -/
def appropriateMsg : String := "The modules are placed appropriately."

/-- Marker for the TypeError escaping calculate_power_density when
get_footprint_size returns (None, None) and the source multiplies the
two None values; the function has no handler. -/
def densityTypeErrorMsg : String := "TypeError: footprint size is None"

/-- The accumulation loop of calculate_power_density (pcb_tool_check.py,
lines 89-93): sum w * h over the footprints; the first footprint whose
size is undefined raises. -/
def footprintAreaSum (acc : ℚ) : List Footprint → Except String ℚ
  | [] => Except.ok acc
  | m :: rest =>
    match get_footprint_size m with
    | none => Except.error densityTypeErrorMsg
    | some (w, h) => footprintAreaSum (acc + w * h) rest

/-- Embedding of calculate_power_density (pcb_tool_check.py, lines
85-108): board area from the engine bounding box, density guarded
against a non-positive area, threshold 40 for the warning text. -/
def calculate_power_density (board : Board) : Except String DensityReport :=
  match footprintAreaSum 0 board.footprints with
  | Except.error e => Except.error e
  | Except.ok fpArea =>
    let boardArea := board.boundingBox.w * board.boundingBox.h
    let powerDensity := if boardArea > 0 then fpArea / boardArea * 100 else 0
    Except.ok { footprintArea := fpArea, boardArea := boardArea, powerDensity := powerDensity
                info := if powerDensity < 40 then looseMsg else appropriateMsg }

/-! ### Facts about the angle normalization -/

theorem normalize180_lb (a : ℚ) : -180 < normalize180 a := by
  have h := Int.ceil_lt_add_one ((a - 180) / 360)
  have h360 : (0 : ℚ) < 360 := by norm_num
  unfold normalize180
  have : (360 : ℚ) * ⌈(a - 180) / 360⌉ < 360 * ((a - 180) / 360 + 1) := by
    exact (mul_lt_mul_left h360).mpr h
  have hexp : (360 : ℚ) * ((a - 180) / 360 + 1) = a + 180 := by
    field_simp
    ring
  linarith [this, hexp ▸ this]

theorem normalize180_ub (a : ℚ) : normalize180 a ≤ 180 := by
  have h := Int.le_ceil ((a - 180) / 360)
  have h360 : (0 : ℚ) < 360 := by norm_num
  unfold normalize180
  have : (360 : ℚ) * ((a - 180) / 360) ≤ 360 * ⌈(a - 180) / 360⌉ :=
    (mul_le_mul_left h360).mpr h
  have hexp : (360 : ℚ) * ((a - 180) / 360) = a - 180 := by
    field_simp
  linarith [hexp ▸ this]

theorem normalize180_sub (a : ℚ) : ∃ k : ℤ, a - normalize180 a = 360 * k :=
  ⟨⌈(a - 180) / 360⌉, by unfold normalize180; ring⟩

theorem normalize180_eq_of (a r : ℚ) (hlb : -180 < r) (hub : r ≤ 180)
    (hk : ∃ k : ℤ, a = r + 360 * k) : normalize180 a = r := by
  obtain ⟨k, hk⟩ := hk
  obtain ⟨k2, hk2⟩ := normalize180_sub a
  have hlb2 := normalize180_lb a
  have hub2 := normalize180_ub a
  have hdiff : normalize180 a - r = 360 * (k - k2 : ℤ) := by
    push_cast
    linarith [hk, hk2]
  have habs : |normalize180 a - r| < 360 := by
    rw [abs_lt]
    constructor <;> linarith
  rw [hdiff] at habs
  rw [abs_mul, abs_of_pos (by norm_num : (0:ℚ) < 360)] at habs
  have h1 : |((k - k2 : ℤ) : ℚ)| < 1 := by linarith
  have h2 : |k - k2| < 1 := by
    have h3 : ((|k - k2| : ℤ) : ℚ) < 1 := by rwa [Int.cast_abs]
    exact_mod_cast h3
  have h4 := abs_lt.mp h2
  have hz : (k - k2 : ℤ) = 0 := by omega
  rw [hz] at hdiff
  push_cast at hdiff
  linarith

theorem normalize180_eq_iff (a r : ℚ) (hlb : -180 < r) (hub : r ≤ 180) :
    normalize180 a = r ↔ ∃ k : ℤ, a = r + 360 * k := by
  constructor
  · intro h
    obtain ⟨k, hk⟩ := normalize180_sub a
    exact ⟨k, by linarith [h ▸ hk]⟩
  · exact normalize180_eq_of a r hlb hub

theorem courtyard_setOrientation (fp : Footprint) (a : ℚ) :
    get_footprint_courtyard (setOrientationDegrees fp a) = get_footprint_courtyard fp := rfl

/-- The footprint used as the concrete instance of the size-swap claim:
a 2 mm by 3 mm courtyard. -/
def fpSwapDemo : Footprint :=
  { reference := "U1", posX := 0, posY := 0, orientation := 0, locked := false
    graphics := [{ layer := Layer.fCrtYd, bbox := { x := 0, y := 0, w := 2, h := 3 } }]
    pads := [] }

/-- C8: for every footprint with a defined courtyard, the reported size
swaps width and height exactly when the orientation set on the footprint
is 90 or 270 degrees modulo a full turn (stored by the engine as 90 or
-90 after normalization to the interval from -180 exclusive to 180), and
is unswapped for every other angle, arbitrary non-right angles included;
concretely, a 2 by 3 courtyard reports (3, 2) at 270 degrees and (2, 3)
at 45 degrees. -/
theorem C8_size_swap_at_right_angles :
    (∀ (fp : Footprint) (a : ℚ) (r : Rect),
      get_footprint_courtyard fp = some r →
        (((∃ k : ℤ, a = 90 + 360 * k) ∨ (∃ k : ℤ, a = 270 + 360 * k)) →
            get_footprint_size (setOrientationDegrees fp a) = some (r.h, r.w)) ∧
        (¬ ((∃ k : ℤ, a = 90 + 360 * k) ∨ (∃ k : ℤ, a = 270 + 360 * k)) →
            get_footprint_size (setOrientationDegrees fp a) = some (r.w, r.h))) ∧
    get_footprint_size (setOrientationDegrees fpSwapDemo 270) = some (3, 2) ∧
    get_footprint_size (setOrientationDegrees fpSwapDemo 45) = some (2, 3) := by
  have hmain : ∀ (fp : Footprint) (a : ℚ) (r : Rect),
      get_footprint_courtyard fp = some r →
        (((∃ k : ℤ, a = 90 + 360 * k) ∨ (∃ k : ℤ, a = 270 + 360 * k)) →
            get_footprint_size (setOrientationDegrees fp a) = some (r.h, r.w)) ∧
        (¬ ((∃ k : ℤ, a = 90 + 360 * k) ∨ (∃ k : ℤ, a = 270 + 360 * k)) →
            get_footprint_size (setOrientationDegrees fp a) = some (r.w, r.h)) := by
    intro fp a r hcy
    have hcy2 : get_footprint_courtyard (setOrientationDegrees fp a) = some r := by
      rw [courtyard_setOrientation]; exact hcy
    have hstored : (setOrientationDegrees fp a).orientation = normalize180 a := rfl
    constructor
    · rintro (⟨k, hk⟩ | ⟨k, hk⟩)
      · have h90 : normalize180 a = 90 :=
          normalize180_eq_of a 90 (by norm_num) (by norm_num) ⟨k, hk⟩
        simp only [get_footprint_size, hcy2, hstored, h90]
        norm_num
      · have hm90 : normalize180 a = -90 :=
          normalize180_eq_of a (-90) (by norm_num) (by norm_num)
            ⟨k + 1, by push_cast; linarith⟩
        simp only [get_footprint_size, hcy2, hstored, hm90]
        norm_num
    · intro hnot
      have hne90 : normalize180 a ≠ 90 := by
        intro h
        exact hnot (Or.inl ((normalize180_eq_iff a 90 (by norm_num) (by norm_num)).mp h))
      have hnem90 : normalize180 a ≠ -90 := by
        intro h
        obtain ⟨k, hk⟩ := (normalize180_eq_iff a (-90) (by norm_num) (by norm_num)).mp h
        exact hnot (Or.inr ⟨k - 1, by push_cast; linarith⟩)
      simp only [get_footprint_size, hcy2, hstored]
      rw [if_neg (by push_neg; exact ⟨hne90, hnem90⟩)]
  refine ⟨hmain, ?_, ?_⟩
  · have h := (hmain fpSwapDemo 270 { x := 0, y := 0, w := 2, h := 3 } (by rfl)).1
      (Or.inr ⟨0, by norm_num⟩)
    simpa using h
  · have h := (hmain fpSwapDemo 45 { x := 0, y := 0, w := 2, h := 3 } (by rfl)).2
      (by
        rintro (⟨k, hk⟩ | ⟨k, hk⟩)
        · have hk2 : (360 : ℚ) * (k : ℚ) = -45 := by linarith
          have hk3 : (360 * k : ℤ) = -45 := by exact_mod_cast hk2
          omega
        · have hk2 : (360 : ℚ) * (k : ℚ) = -225 := by linarith
          have hk3 : (360 * k : ℤ) = -225 := by exact_mod_cast hk2
          omega)
    simpa using h

/-! ### The segment-intersection detector -/

theorem mem_check_segments_intersect (segments : List Seg) (i j : ℕ) (n1 n2 : String) :
    (i, j, n1, n2) ∈ check_segments_intersect segments ↔
      ∃ s1 s2, segments[i]? = some s1 ∧ segments[j]? = some s2 ∧ i < j ∧
        s1.net ≠ s2.net ∧
        check_two_segments s1.x1 s1.y1 s1.x2 s1.y2 s2.x1 s2.y1 s2.x2 s2.y2 = true ∧
        n1 = s1.net ∧ n2 = s2.net := by
  unfold check_segments_intersect
  by_cases hn : segments.length < 2
  · simp only [if_pos hn, List.not_mem_nil, false_iff]
    rintro ⟨s1, s2, h1, h2, hij, -⟩
    have hi := (List.getElem?_eq_some.mp h1).1
    have hj := (List.getElem?_eq_some.mp h2).1
    omega
  · simp only [if_neg hn]
    rw [List.mem_flatMap]
    constructor
    · rintro ⟨i', hi', hmem⟩
      rw [List.mem_filterMap] at hmem
      obtain ⟨j', hj', hf⟩ := hmem
      have hj'r := List.mem_range'_1.mp hj'
      cases hs1 : segments[i']? with
      | none => rw [hs1] at hf; simp at hf
      | some s1 =>
        cases hs2 : segments[j']? with
        | none => rw [hs1, hs2] at hf; simp at hf
        | some s2 =>
          rw [hs1, hs2] at hf
          dsimp only at hf
          by_cases hnet : s1.net = s2.net
          · rw [if_pos hnet] at hf; simp at hf
          · rw [if_neg hnet] at hf
            by_cases hchk : check_two_segments s1.x1 s1.y1 s1.x2 s1.y2 s2.x1 s2.y1 s2.x2 s2.y2 = true
            · rw [if_pos hchk] at hf
              simp only [Option.some.injEq, Prod.mk.injEq] at hf
              obtain ⟨he1, he2, he3, he4⟩ := hf
              subst he1; subst he2
              exact ⟨s1, s2, hs1, hs2, by omega, hnet, hchk, he3.symm, he4.symm⟩
            · rw [if_neg hchk] at hf; simp at hf
    · rintro ⟨s1, s2, hs1, hs2, hij, hnet, hchk, hn1, hn2⟩
      have hi := (List.getElem?_eq_some.mp hs1).1
      have hj := (List.getElem?_eq_some.mp hs2).1
      refine ⟨i, List.mem_range.mpr hi, ?_⟩
      rw [List.mem_filterMap]
      refine ⟨j, List.mem_range'_1.mpr ⟨by omega, by omega⟩, ?_⟩
      rw [hs1, hs2]
      dsimp only
      rw [if_neg hnet, if_pos hchk, hn1, hn2]

/-- The known-crossing test segment (0,0)-(10,10) on net A. -/
def segCrossA : Seg := { x1 := 0, y1 := 0, x2 := 10, y2 := 10, net := "A" }

/-- The known-crossing test segment (0,10)-(10,0) on net B. -/
def segCrossB : Seg := { x1 := 0, y1 := 10, x2 := 10, y2 := 0, net := "B" }

/-- The same geometric segment as segCrossB but carrying net A, for the
same-net exclusion test. -/
def segCrossSameNet : Seg := { x1 := 0, y1 := 10, x2 := 10, y2 := 0, net := "A" }

/-- C1: the segment-intersection detector reports exactly the pairs
(i, j) with i strictly below j whose segments carry different net names
and satisfy the CCW proper-intersection test, each reported entry carrying
the two indices and both net names; same-net pairs are omitted even when
the segments geometrically cross; and on the crossing input
(0,0)-(10,10) net A against (0,10)-(10,0) net B exactly one pair is
reported. -/
theorem C1_segment_intersection_reports_exact_pairs :
    (∀ (segments : List Seg) (i j : ℕ) (n1 n2 : String),
      (i, j, n1, n2) ∈ check_segments_intersect segments ↔
        ∃ s1 s2, segments[i]? = some s1 ∧ segments[j]? = some s2 ∧ i < j ∧
          s1.net ≠ s2.net ∧
          check_two_segments s1.x1 s1.y1 s1.x2 s1.y2 s2.x1 s2.y1 s2.x2 s2.y2 = true ∧
          n1 = s1.net ∧ n2 = s2.net) ∧
    check_segments_intersect [segCrossA, segCrossB] = [(0, 1, "A", "B")] ∧
    check_segments_intersect [segCrossA, segCrossSameNet] = [] := by
  refine ⟨mem_check_segments_intersect, ?_, ?_⟩
  · norm_num [check_segments_intersect, check_two_segments, ccw, segCrossA, segCrossB,
      List.range_succ, List.range', List.filterMap_cons, List.getElem?_cons_zero,
      List.getElem?_cons_succ]
    simp
  · norm_num [check_segments_intersect, check_two_segments, ccw, segCrossA, segCrossSameNet,
      List.range_succ, List.range', List.filterMap_cons, List.getElem?_cons_zero,
      List.getElem?_cons_succ]

/-! ### The pairwise clearance check -/

theorem mem_pairLoop {α : Type} (n : ℕ) (f : ℕ → ℕ → Option α) (a : α) :
    a ∈ pairLoop n f ↔ ∃ i j, i < j ∧ j < n ∧ f i j = some a := by
  unfold pairLoop
  rw [List.mem_flatMap]
  constructor
  · rintro ⟨i, hi, hmem⟩
    rw [List.mem_filterMap] at hmem
    obtain ⟨j, hj, hf⟩ := hmem
    have hjr := List.mem_range'_1.mp hj
    have hir := List.mem_range.mp hi
    exact ⟨i, j, by omega, by omega, hf⟩
  · rintro ⟨i, j, hij, hjn, hf⟩
    refine ⟨i, List.mem_range.mpr (by omega), ?_⟩
    rw [List.mem_filterMap]
    exact ⟨j, List.mem_range'_1.mpr ⟨by omega, by omega⟩, hf⟩

/-- Courtyard of the 2 mm by 2 mm footprint centered at the origin. -/
def rectGapA : Rect := { x := -1, y := -1, w := 2, h := 2 }

/-- Courtyard of the 2 mm by 2 mm footprint centered at x = 2.1 mm. -/
def rectGapNear : Rect := { x := 11/10, y := -1, w := 2, h := 2 }

/-- Courtyard of the 2 mm by 2 mm footprint centered at x = 2.3 mm. -/
def rectGapFar : Rect := { x := 13/10, y := -1, w := 2, h := 2 }

/-- A 2 mm by 2 mm footprint centered at the origin. -/
def fpGapA : Footprint :=
  { reference := "U1", posX := 0, posY := 0, orientation := 0, locked := false
    graphics := [{ layer := Layer.fCrtYd, bbox := rectGapA }], pads := [] }

/-- A 2 mm by 2 mm footprint centered at (2.1, 0): edge-to-edge gap of
0.1 mm to fpGapA. -/
def fpGapNear : Footprint :=
  { reference := "U2", posX := 21/10, posY := 0, orientation := 0, locked := false
    graphics := [{ layer := Layer.fCrtYd, bbox := rectGapNear }], pads := [] }

/-- A 2 mm by 2 mm footprint centered at (2.3, 0): edge-to-edge gap of
0.3 mm to fpGapA. -/
def fpGapFar : Footprint :=
  { reference := "U2", posX := 23/10, posY := 0, orientation := 0, locked := false
    graphics := [{ layer := Layer.fCrtYd, bbox := rectGapFar }], pads := [] }

/-- Board with the 0.1 mm gap pair. -/
def boardGap01 : Board :=
  { footprints := [fpGapA, fpGapNear], drawings := [], nets := []
    boundingBox := { x := 0, y := 0, w := 0, h := 0 } }

/-- Board with the 0.3 mm gap pair. -/
def boardGap03 : Board :=
  { footprints := [fpGapA, fpGapFar], drawings := [], nets := []
    boundingBox := { x := 0, y := 0, w := 0, h := 0 } }

/-- C2: on a board whose footprints all have defined courtyards, the
clearance check visits every unordered pair i strictly below j in board
order, inflates the courtyard of footprint i by the margin (0.2 mm when
unspecified) and tests intersection against the un-inflated courtyard of
footprint j, emitting one violation naming both references per
intersecting pair; concretely, 2 mm footprints with a 0.1 mm gap are
reported at the default margin and a 0.3 mm gap is not. -/
theorem C2_clearance_inflates_one_side_and_reports_pairs :
    (∀ (board : Board) (minClearance : Option ℚ),
      (∀ m ∈ board.footprints, (get_footprint_courtyard m).isSome) →
      ∃ vs, check_board_clearance_violations board minClearance = Except.ok vs ∧
        ∀ v, v ∈ vs ↔ ∃ (i j : ℕ) (mod1 mod2 : Footprint) (bbox1 bbox2 : Rect),
          board.footprints[i]? = some mod1 ∧ board.footprints[j]? = some mod2 ∧ i < j ∧
          get_footprint_courtyard mod1 = some bbox1 ∧
          get_footprint_courtyard mod2 = some bbox2 ∧
          (bbox1.inflate (minClearance.getD 0.2)).intersects bbox2 = true ∧
          v = mkClearanceViolation mod1 mod2 bbox1 bbox2) ∧
    check_board_clearance_violations boardGap01 none =
      Except.ok [mkClearanceViolation fpGapA fpGapNear rectGapA rectGapNear] ∧
    check_board_clearance_violations boardGap03 none = Except.ok [] := by
  refine ⟨?_, ?_, ?_⟩
  · intro board minClearance hdef
    have hguard : board.footprints.all (fun m => (get_footprint_courtyard m).isSome) = true :=
      List.all_eq_true.mpr hdef
    refine ⟨_, by unfold check_board_clearance_violations; rw [if_pos hguard], ?_⟩
    intro v
    rw [mem_pairLoop]
    constructor
    · rintro ⟨i, j, hij, hjn, hf⟩
      cases hs1 : board.footprints[i]? with
      | none => rw [hs1] at hf; simp at hf
      | some mod1 =>
        cases hs2 : board.footprints[j]? with
        | none => rw [hs1, hs2] at hf; simp at hf
        | some mod2 =>
          rw [hs1, hs2] at hf
          dsimp only at hf
          cases hc1 : get_footprint_courtyard mod1 with
          | none => rw [hc1] at hf; simp at hf
          | some bbox1 =>
            cases hc2 : get_footprint_courtyard mod2 with
            | none => rw [hc1, hc2] at hf; simp at hf
            | some bbox2 =>
              rw [hc1, hc2] at hf
              dsimp only at hf
              by_cases hint : (bbox1.inflate (minClearance.getD 0.2)).intersects bbox2 = true
              · rw [if_pos hint] at hf
                exact ⟨i, j, mod1, mod2, bbox1, bbox2, hs1, hs2, hij, hc1, hc2, hint,
                  (Option.some.inj hf).symm⟩
              · rw [if_neg hint] at hf; simp at hf
    · rintro ⟨i, j, mod1, mod2, bbox1, bbox2, hs1, hs2, hij, hc1, hc2, hint, hv⟩
      have hj := (List.getElem?_eq_some.mp hs2).1
      refine ⟨i, j, hij, hj, ?_⟩
      rw [hs1, hs2]
      dsimp only
      rw [hc1, hc2]
      dsimp only
      rw [if_pos hint, hv]
  · norm_num [check_board_clearance_violations, pairLoop, boardGap01, fpGapA, fpGapNear,
      rectGapA, rectGapNear, get_footprint_courtyard, Rect.inflate, Rect.intersects,
      mkClearanceViolation, List.range_succ, List.range', List.filterMap_cons,
      List.getElem?_cons_zero, List.getElem?_cons_succ]
  · norm_num [check_board_clearance_violations, pairLoop, boardGap03, fpGapA, fpGapFar,
      rectGapA, rectGapFar, get_footprint_courtyard, Rect.inflate, Rect.intersects,
      mkClearanceViolation, List.range_succ, List.range', List.filterMap_cons,
      List.getElem?_cons_zero, List.getElem?_cons_succ]

/-! ### The pad-to-pad connectivity analyzer -/

theorem mem_padConnections (board : Board) (mod1 : Footprint) (pad : Pad) (net : Net)
    (oa : Option AlignEntry) (seg : Seg) :
    (oa, seg) ∈ padConnections board mod1 pad net ↔
      ∃ modi ∈ board.footprints, modi.reference ≠ mod1.reference ∧ modi.locked = false ∧
        ∃ padi ∈ modi.pads, padi.netCode = net.code ∧ (oa, seg) = connEntry mod1 pad modi padi := by
  unfold padConnections
  rw [List.mem_flatMap]
  constructor
  · rintro ⟨modi, hmodi, hmem⟩
    by_cases hcond : modi.reference ≠ mod1.reference ∧ modi.locked = false
    · rw [if_pos hcond] at hmem
      rw [List.mem_filterMap] at hmem
      obtain ⟨padi, hpadi, hf⟩ := hmem
      by_cases hcode : padi.netCode = net.code
      · rw [if_pos hcode] at hf
        exact ⟨modi, hmodi, hcond.1, hcond.2, padi, hpadi, hcode, (Option.some.inj hf).symm⟩
      · rw [if_neg hcode] at hf; simp at hf
    · rw [if_neg hcond] at hmem; simp at hmem
  · rintro ⟨modi, hmodi, href, hlock, padi, hpadi, hcode, heq⟩
    refine ⟨modi, hmodi, ?_⟩
    rw [if_pos ⟨href, hlock⟩, List.mem_filterMap]
    exact ⟨padi, hpadi, by rw [if_pos hcode, heq]⟩

theorem pad2padLoop_ok (board : Board) (mod1 : Footprint) (ps : List Pad)
    (h : ∀ pad ∈ ps, pad.netName ≠ "" → pad.netName ≠ "GND" →
      (board.findNet pad.netName).isSome) :
    ∃ conns, pad2padLoop board mod1 ps = Except.ok conns ∧
      ∀ (oa : Option AlignEntry) (seg : Seg),
        (oa, seg) ∈ conns ↔ ∃ pad ∈ ps, pad.netName ≠ "" ∧ pad.netName ≠ "GND" ∧
          ∃ net, board.findNet pad.netName = some net ∧
            (oa, seg) ∈ padConnections board mod1 pad net := by
  induction ps with
  | nil => exact ⟨[], rfl, by simp⟩
  | cons pad rest ih =>
    obtain ⟨tail, htail, hmem⟩ := ih (fun p hp => h p (List.mem_cons_of_mem _ hp))
    by_cases hname : pad.netName ≠ "" ∧ pad.netName ≠ "GND"
    · have hsome := h pad (List.mem_cons_self _ _) hname.1 hname.2
      cases hn : board.findNet pad.netName with
      | none => rw [hn] at hsome; simp at hsome
      | some net =>
        refine ⟨padConnections board mod1 pad net ++ tail, ?_, ?_⟩
        · unfold pad2padLoop
          rw [if_pos hname, hn, htail]
        · intro oa seg
          rw [List.mem_append, hmem oa seg]
          constructor
          · rintro (hc | ⟨p, hp, hps⟩)
            · exact ⟨pad, List.mem_cons_self _ _, hname.1, hname.2, net, hn, hc⟩
            · exact ⟨p, List.mem_cons_of_mem _ hp, hps⟩
          · rintro ⟨p, hp, hne, hng, net2, hn2, hin⟩
            rcases List.mem_cons.mp hp with heq | hp2
            · subst heq
              rw [hn] at hn2
              exact Or.inl ((Option.some.inj hn2) ▸ hin)
            · exact Or.inr ⟨p, hp2, hne, hng, net2, hn2, hin⟩
    · refine ⟨tail, ?_, ?_⟩
      · unfold pad2padLoop
        rw [if_neg hname]
        exact htail
      · intro oa seg
        rw [hmem oa seg]
        constructor
        · rintro ⟨p, hp, hps⟩
          exact ⟨p, List.mem_cons_of_mem _ hp, hps⟩
        · rintro ⟨p, hp, hne, hng, hrest⟩
          rcases List.mem_cons.mp hp with heq | hp2
          · exfalso
            exact hname (heq ▸ ⟨hne, hng⟩)
          · exact ⟨p, hp2, hne, hng, hrest⟩

theorem sqrt_strict_mono_bridge (m p : ℚ) (hm : 0 ≤ m) :
    m < p ↔ Real.sqrt (m : ℝ) < Real.sqrt (p : ℝ) := by
  constructor
  · intro hlt
    exact Real.sqrt_lt_sqrt (by exact_mod_cast hm) (by exact_mod_cast hlt)
  · intro hlt
    by_contra hc
    push_neg at hc
    exact absurd (Real.sqrt_le_sqrt (by exact_mod_cast hc)) (not_le.mpr hlt)

theorem mod2modSq_nonneg (mod1 modi : Footprint) : 0 ≤ mod2modSq mod1 modi := by
  unfold mod2modSq
  positivity

/-- Target footprint of the concrete connectivity instance: U1 at the
origin with one pad on net N1 at (1, 0). -/
def fpConnTarget : Footprint :=
  { reference := "U1", posX := 0, posY := 0, orientation := 0, locked := false
    graphics := []
    pads := [{ number := "1", posX := 1, posY := 0, netName := "N1", netCode := 1 }] }

/-- Peer U2 at (4, 0), unlocked, pad on net code 1 at (3, 0): the pad
distance 2 is below the module distance 4, so no alignment flag. -/
def fpConnNear : Footprint :=
  { reference := "U2", posX := 4, posY := 0, orientation := 0, locked := false
    graphics := []
    pads := [{ number := "1", posX := 3, posY := 0, netName := "N1", netCode := 1 }] }

/-- Peer U3 at (1, 0), unlocked, pad on net code 1 at (-3, 0): the pad
distance 4 exceeds the module distance 1, so an alignment flag fires. -/
def fpConnFar : Footprint :=
  { reference := "U3", posX := 1, posY := 0, orientation := 0, locked := false
    graphics := []
    pads := [{ number := "1", posX := -3, posY := 0, netName := "N1", netCode := 1 }] }

/-- Board of the concrete connectivity instance. -/
def boardConn : Board :=
  { footprints := [fpConnTarget, fpConnNear, fpConnFar], drawings := []
    nets := [{ name := "N1", code := 1 }]
    boundingBox := { x := 0, y := 0, w := 0, h := 0 } }

/-- C3: the connectivity analysis considers exactly the pads of the
target with a non-empty net name other than GND, pairs each with exactly
the pads of other, unlocked footprints whose net code equals the code the
board resolves for that net name, records one segment per such pair, and
flags an alignment entry for a pair exactly when the Euclidean
pad-to-pad distance strictly exceeds the Euclidean module-to-module
distance; concretely, on boardConn only the far peer is flagged and both
pairs produce segments. -/
theorem C3_pad2pad_pairs_and_alignment :
    (∀ (board : Board) (mod1 : Footprint),
      (∀ pad ∈ mod1.pads, pad.netName ≠ "" → pad.netName ≠ "GND" →
        (board.findNet pad.netName).isSome) →
      ∃ conns, pad2pad_connections board mod1 = Except.ok conns ∧
        check_pad2pad_connection board mod1 =
          Except.ok (conns.filterMap Prod.fst, check_segments_intersect (conns.map Prod.snd)) ∧
        ∀ (oa : Option AlignEntry) (seg : Seg),
          (oa, seg) ∈ conns ↔ ∃ pad ∈ mod1.pads, pad.netName ≠ "" ∧ pad.netName ≠ "GND" ∧
            ∃ net, board.findNet pad.netName = some net ∧
              ∃ modi ∈ board.footprints, modi.reference ≠ mod1.reference ∧
                modi.locked = false ∧
                ∃ padi ∈ modi.pads, padi.netCode = net.code ∧
                  (oa, seg) = connEntry mod1 pad modi padi) ∧
    (∀ (mod1 : Footprint) (pad : Pad) (modi : Footprint) (padi : Pad),
      ((alignOf mod1 pad modi padi).isSome = true ↔
        Real.sqrt ((mod2modSq mod1 modi : ℚ) : ℝ) <
          Real.sqrt ((pad2padSq pad padi : ℚ) : ℝ)) ∧
      ∀ e, alignOf mod1 pad modi padi = some e →
        e = { padNum := pad.number, modRef := mod1.reference, padiNum := padi.number
              modiRef := modi.reference, netName := pad.netName }) ∧
    pad2pad_connections boardConn fpConnTarget =
      Except.ok
        [(none, { x1 := 1, y1 := 0, x2 := 3, y2 := 0, net := "N1" }),
         (some { padNum := "1", modRef := "U1", padiNum := "1", modiRef := "U3"
                 netName := "N1" },
          { x1 := 1, y1 := 0, x2 := -3, y2 := 0, net := "N1" })] ∧
    check_pad2pad_connection boardConn fpConnTarget =
      Except.ok
        ([{ padNum := "1", modRef := "U1", padiNum := "1", modiRef := "U3"
            netName := "N1" }], []) := by
  refine ⟨?_, ?_, ?_, ?_⟩
  · intro board mod1 hnet
    obtain ⟨conns, hconns, hmem⟩ := pad2padLoop_ok board mod1 mod1.pads hnet
    refine ⟨conns, hconns, ?_, ?_⟩
    · unfold check_pad2pad_connection pad2pad_connections at *
      rw [hconns]
    · intro oa seg
      rw [hmem oa seg]
      constructor
      · rintro ⟨pad, hp, hne, hng, net, hn, hin⟩
        rw [mem_padConnections] at hin
        exact ⟨pad, hp, hne, hng, net, hn, hin⟩
      · rintro ⟨pad, hp, hne, hng, net, hn, hin⟩
        rw [← mem_padConnections] at hin
        exact ⟨pad, hp, hne, hng, net, hn, hin⟩
  · intro mod1 pad modi padi
    constructor
    · unfold alignOf
      by_cases hlt : pad2padSq pad padi > mod2modSq mod1 modi
      · rw [if_pos hlt]
        simp only [Option.isSome_some, true_iff]
        exact (sqrt_strict_mono_bridge _ _ (mod2modSq_nonneg mod1 modi)).mp hlt
      · rw [if_neg hlt]
        simp only [Option.isSome_none, Bool.false_eq_true, false_iff]
        intro hc
        exact hlt ((sqrt_strict_mono_bridge _ _ (mod2modSq_nonneg mod1 modi)).mpr hc)
    · intro e he
      unfold alignOf at he
      by_cases hlt : pad2padSq pad padi > mod2modSq mod1 modi
      · rw [if_pos hlt] at he
        exact (Option.some.inj he).symm
      · rw [if_neg hlt] at he
        simp at he
  · norm_num [pad2pad_connections, pad2padLoop, padConnections, connEntry, alignOf,
      pad2padSq, mod2modSq, boardConn, fpConnTarget, fpConnNear, fpConnFar,
      Board.findNet, List.find?]
    norm_num [List.filterMap_cons]
    simp
  · norm_num [check_pad2pad_connection, pad2pad_connections, pad2padLoop, padConnections,
      connEntry, alignOf, pad2padSq, mod2modSq, boardConn, fpConnTarget, fpConnNear,
      fpConnFar, Board.findNet, List.find?, check_segments_intersect]
    norm_num [List.filterMap_cons]
    simp [check_two_segments, ccw, List.range_succ, List.range',
      List.getElem?_cons_zero, List.getElem?_cons_succ, List.filterMap_cons]

/-! ### The four-angle placement sweep -/

theorem normalize180_zero : normalize180 0 = 0 :=
  normalize180_eq_of 0 0 (by norm_num) (by norm_num) ⟨0, by norm_num⟩

theorem normalize180_ninety : normalize180 90 = 90 :=
  normalize180_eq_of 90 90 (by norm_num) (by norm_num) ⟨0, by norm_num⟩

theorem normalize180_half_turn : normalize180 180 = 180 :=
  normalize180_eq_of 180 180 (by norm_num) (by norm_num) ⟨0, by norm_num⟩

theorem normalize180_three_quarters : normalize180 270 = -90 :=
  normalize180_eq_of 270 (-90) (by norm_num) (by norm_num) ⟨1, by norm_num⟩

theorem sweepAngles_cons (ref : String) (mcv angle : ℚ) (rest : List ℚ)
    (board : Board) (findings : List Finding)
    (li : List (ℕ × ℕ × String × String)) :
    sweepAngles ref mcv (angle :: rest) board findings li =
      match sweepStep ref mcv board angle with
      | Except.error e => Except.error e
      | Except.ok (board2, finding, intersect) =>
        sweepAngles ref mcv rest board2 (findings ++ [finding]) intersect := rfl

theorem sweepStep_ok (ref : String) (mcv : ℚ) (board : Board) (angle : ℚ)
    (b2 : Board) (f : Finding) (i : List (ℕ × ℕ × String × String))
    (h : sweepStep ref mcv board angle = Except.ok (b2, f, i)) :
    b2 = board.setFootprintOrientation ref angle ∧ f.angle = angle ∧
    ∃ mod1 overlapped alignment,
      b2.findFootprintByReference ref = some mod1 ∧
      check_module_clearance b2 mod1 mcv = Except.ok overlapped ∧
      check_pad2pad_connection b2 mod1 = Except.ok (alignment, i) ∧
      f.severity = (if overlapped ≠ [] then Severity.error
        else if alignment ≠ [] then Severity.warning
        else if i ≠ [] then Severity.warning
        else Severity.info) := by
  unfold sweepStep at h
  cases hfind : (board.setFootprintOrientation ref angle).findFootprintByReference ref with
  | none => rw [hfind] at h; simp at h
  | some mod1 =>
    rw [hfind] at h
    dsimp only at h
    cases hcl : check_module_clearance (board.setFootprintOrientation ref angle) mod1 mcv with
    | error e => rw [hcl] at h; simp at h
    | ok overlapped =>
      rw [hcl] at h
      dsimp only at h
      cases hpp : check_pad2pad_connection (board.setFootprintOrientation ref angle) mod1 with
      | error e => rw [hpp] at h; simp at h
      | ok ai =>
        obtain ⟨alignment, intersect⟩ := ai
        rw [hpp] at h
        dsimp only at h
        simp only [Except.ok.injEq, Prod.mk.injEq] at h
        obtain ⟨hb, hf, hi⟩ := h
        subst hb
        subst hi
        refine ⟨?_, ?_, mod1, overlapped, alignment, hfind, hcl, hpp, ?_⟩
        · rfl
        · rw [← hf]
        · rw [← hf]

theorem sweep_unfold (board : Board) (ref : String) (mc : Option ℚ)
    (fs : List Finding) (tr : List (String × String)) (bEnd : Board)
    (h : check_module_status_by_angles board ref mc = Except.ok (fs, tr, bEnd)) :
    ∃ (b1 b2 b3 b4 : Board) (f1 f2 f3 f4 : Finding)
      (i1 i2 i3 i4 : List (ℕ × ℕ × String × String)),
      sweepStep ref (mc.getD 0.2) board 0 = Except.ok (b1, f1, i1) ∧
      sweepStep ref (mc.getD 0.2) b1 90 = Except.ok (b2, f2, i2) ∧
      sweepStep ref (mc.getD 0.2) b2 180 = Except.ok (b3, f3, i3) ∧
      sweepStep ref (mc.getD 0.2) b3 270 = Except.ok (b4, f4, i4) ∧
      fs = [f1, f2, f3, f4] ∧ tr = i4.map (fun e => (e.2.2.1, e.2.2.2)) ∧ bEnd = b4 := by
  unfold check_module_status_by_angles at h
  dsimp only at h
  cases hsw : sweepAngles ref (mc.getD 0.2) [0, 90, 180, 270] board [] [] with
  | error e => rw [hsw] at h; simp at h
  | ok res =>
    obtain ⟨fs0, li0, b0⟩ := res
    rw [hsw] at h
    dsimp only at h
    simp only [Except.ok.injEq, Prod.mk.injEq] at h
    obtain ⟨hfs, htr, hb⟩ := h
    rw [sweepAngles_cons] at hsw
    cases h1 : sweepStep ref (mc.getD 0.2) board 0 with
    | error e => rw [h1] at hsw; simp at hsw
    | ok r1 =>
      obtain ⟨b1, f1, i1⟩ := r1
      rw [h1] at hsw
      dsimp only at hsw
      rw [sweepAngles_cons] at hsw
      cases h2 : sweepStep ref (mc.getD 0.2) b1 90 with
      | error e => rw [h2] at hsw; simp at hsw
      | ok r2 =>
        obtain ⟨b2, f2, i2⟩ := r2
        rw [h2] at hsw
        dsimp only at hsw
        rw [sweepAngles_cons] at hsw
        cases h3 : sweepStep ref (mc.getD 0.2) b2 180 with
        | error e => rw [h3] at hsw; simp at hsw
        | ok r3 =>
          obtain ⟨b3, f3, i3⟩ := r3
          rw [h3] at hsw
          dsimp only at hsw
          rw [sweepAngles_cons] at hsw
          cases h4 : sweepStep ref (mc.getD 0.2) b3 270 with
          | error e => rw [h4] at hsw; simp at hsw
          | ok r4 =>
            obtain ⟨b4, f4, i4⟩ := r4
            rw [h4] at hsw
            dsimp only at hsw
            unfold sweepAngles at hsw
            simp only [Except.ok.injEq, Prod.mk.injEq] at hsw
            obtain ⟨hfs0, hli0, hb0⟩ := hsw
            refine ⟨b1, b2, b3, b4, f1, f2, f3, f4, i1, i2, i3, i4,
              rfl, h2, h3, h4, ?_, ?_, ?_⟩
            · rw [← hfs, ← hfs0]; simp
            · rw [← htr, ← hli0]
            · rw [← hb, ← hb0]

/-- Single-footprint board for the clean sweep instance. -/
def boardSweepSolo : Board :=
  { footprints := [fpGapA], drawings := [], nets := []
    boundingBox := { x := 0, y := 0, w := 0, h := 0 } }

/-- The target of boardSweepSolo after the sweep: orientation left at
the normalized form of the last tested angle, -90. -/
def fpGapAEnd : Footprint :=
  { reference := "U1", posX := 0, posY := 0, orientation := -90, locked := false
    graphics := [{ layer := Layer.fCrtYd, bbox := rectGapA }], pads := [] }

/-- A second footprint overlapping fpGapA, for the ERROR-continuation
instance. -/
def fpOverlap : Footprint :=
  { reference := "U2", posX := 1, posY := 0, orientation := 0, locked := false
    graphics := [{ layer := Layer.fCrtYd, bbox := { x := 0, y := -1, w := 2, h := 2 } }]
    pads := [] }

/-- Board on which every angle of the sweep yields an ERROR finding. -/
def boardSweepOverlap : Board :=
  { footprints := [fpGapA, fpOverlap], drawings := [], nets := []
    boundingBox := { x := 0, y := 0, w := 0, h := 0 } }

/-- C4: whenever the placement evaluator returns, it returns exactly
four findings, one per angle of the fixed sequence [0, 90, 180, 270] in
order, each carrying exactly one severity; each finding is classified
ERROR when any clearance overlap exists at that angle, else WARNING on
alignment flags, else WARNING on intersecting pairs, else INFO; and the
sweep never stops early: on a board in permanent overlap all four ERROR
findings are still produced. -/
theorem C4_sweep_exactly_four_classified_findings :
    (∀ (board : Board) (ref : String) (mc : Option ℚ) (fs : List Finding)
        (tr : List (String × String)) (bEnd : Board),
      check_module_status_by_angles board ref mc = Except.ok (fs, tr, bEnd) →
        fs.length = 4 ∧ fs.map Finding.angle = [0, 90, 180, 270] ∧
        ∀ f ∈ fs, f.severity = Severity.error ∨ f.severity = Severity.warning ∨
          f.severity = Severity.info) ∧
    (∀ (ref : String) (mcv : ℚ) (board : Board) (angle : ℚ) (b2 : Board)
        (f : Finding) (i : List (ℕ × ℕ × String × String)),
      sweepStep ref mcv board angle = Except.ok (b2, f, i) →
        f.angle = angle ∧
        ∃ mod1 overlapped alignment,
          b2.findFootprintByReference ref = some mod1 ∧
          check_module_clearance b2 mod1 mcv = Except.ok overlapped ∧
          check_pad2pad_connection b2 mod1 = Except.ok (alignment, i) ∧
          f.severity = (if overlapped ≠ [] then Severity.error
            else if alignment ≠ [] then Severity.warning
            else if i ≠ [] then Severity.warning
            else Severity.info)) ∧
    check_module_status_by_angles boardSweepSolo "U1" none =
      Except.ok ([{ angle := 0, severity := Severity.info },
        { angle := 90, severity := Severity.info },
        { angle := 180, severity := Severity.info },
        { angle := 270, severity := Severity.info }], [],
        { footprints := [fpGapAEnd], drawings := [], nets := []
          boundingBox := { x := 0, y := 0, w := 0, h := 0 } }) ∧
    check_module_status_by_angles boardSweepOverlap "U1" none =
      Except.ok ([{ angle := 0, severity := Severity.error },
        { angle := 90, severity := Severity.error },
        { angle := 180, severity := Severity.error },
        { angle := 270, severity := Severity.error }], [],
        { footprints := [fpGapAEnd, fpOverlap], drawings := [], nets := []
          boundingBox := { x := 0, y := 0, w := 0, h := 0 } }) := by
  refine ⟨?_, ?_, ?_, ?_⟩
  · intro board ref mc fs tr bEnd h
    obtain ⟨b1, b2, b3, b4, f1, f2, f3, f4, i1, i2, i3, i4,
      h1, h2, h3, h4, hfs, htr, hb⟩ := sweep_unfold board ref mc fs tr bEnd h
    have ha1 := (sweepStep_ok _ _ _ _ _ _ _ h1).2.1
    have ha2 := (sweepStep_ok _ _ _ _ _ _ _ h2).2.1
    have ha3 := (sweepStep_ok _ _ _ _ _ _ _ h3).2.1
    have ha4 := (sweepStep_ok _ _ _ _ _ _ _ h4).2.1
    subst hfs
    refine ⟨rfl, ?_, ?_⟩
    · simp [ha1, ha2, ha3, ha4]
    · intro f hf
      cases f with
      | mk a s => cases s <;> simp
  · intro ref mcv board angle b2 f i h
    obtain ⟨hb2, hangle, rest⟩ := sweepStep_ok ref mcv board angle b2 f i h
    exact ⟨hangle, rest⟩
  · norm_num [check_module_status_by_angles, sweepAngles, sweepStep,
      Board.setFootprintOrientation, updateFirstOrientation, setOrientationDegrees,
      Board.findFootprintByReference, List.find?, check_module_clearance, overlapLoop,
      get_footprint_courtyard, Rect.inflate, Rect.intersects, check_pad2pad_connection,
      pad2pad_connections, pad2padLoop, check_segments_intersect,
      normalize180_zero, normalize180_ninety, normalize180_half_turn,
      normalize180_three_quarters, boardSweepSolo, fpGapA, fpGapAEnd, rectGapA]
  · have hne : ("U2" : String) ≠ "U1" := by simp
    norm_num [check_module_status_by_angles, sweepAngles, sweepStep,
      Board.setFootprintOrientation, updateFirstOrientation, setOrientationDegrees,
      Board.findFootprintByReference, List.find?, check_module_clearance, overlapLoop,
      get_footprint_courtyard, Rect.inflate, Rect.intersects, check_pad2pad_connection,
      pad2pad_connections, pad2padLoop, check_segments_intersect,
      normalize180_zero, normalize180_ninety, normalize180_half_turn,
      normalize180_three_quarters, boardSweepOverlap, fpGapA, fpOverlap, fpGapAEnd,
      rectGapA, hne]

theorem updateFirst_updateFirst (ref : String) (a1 a2 : ℚ) (l : List Footprint) :
    updateFirstOrientation ref a2 (updateFirstOrientation ref a1 l) =
      updateFirstOrientation ref a2 l := by
  induction l with
  | nil => rfl
  | cons f rest ih =>
    by_cases h : f.reference = ref
    · have h2 : (setOrientationDegrees f a1).reference = ref := h
      simp only [updateFirstOrientation, if_pos h, if_pos h2]
      rfl
    · simp only [updateFirstOrientation, if_neg h]
      rw [ih]

theorem setOrientation_setOrientation (b : Board) (ref : String) (a1 a2 : ℚ) :
    (b.setFootprintOrientation ref a1).setFootprintOrientation ref a2 =
      b.setFootprintOrientation ref a2 := by
  unfold Board.setFootprintOrientation
  rw [updateFirst_updateFirst]

theorem find_updateFirst (ref : String) (a : ℚ) (l : List Footprint) :
    (updateFirstOrientation ref a l).find? (fun f => f.reference = ref) =
      (l.find? (fun f => f.reference = ref)).map (fun f => setOrientationDegrees f a) := by
  induction l with
  | nil => rfl
  | cons f rest ih =>
    by_cases h : f.reference = ref
    · have h2 : (setOrientationDegrees f a).reference = ref := h
      simp only [updateFirstOrientation, if_pos h]
      rw [List.find?_cons_of_pos _ (by simpa using h2), List.find?_cons_of_pos _ (by simpa using h)]
      rfl
    · simp only [updateFirstOrientation, if_neg h]
      rw [List.find?_cons_of_neg _ (by simpa using h), List.find?_cons_of_neg _ (by simpa using h)]
      exact ih

theorem findFootprint_setOrientation (b : Board) (ref : String) (a : ℚ) :
    (b.setFootprintOrientation ref a).findFootprintByReference ref =
      (b.findFootprintByReference ref).map (fun f => setOrientationDegrees f a) := by
  unfold Board.findFootprintByReference Board.setFootprintOrientation
  exact find_updateFirst ref a b.footprints

theorem mem_updateFirst_of_ne (ref : String) (a : ℚ) (l : List Footprint) :
    ∀ f ∈ updateFirstOrientation ref a l, f.reference ≠ ref → f ∈ l := by
  induction l with
  | nil => intro f hf; simp [updateFirstOrientation] at hf
  | cons g rest ih =>
    by_cases h : g.reference = ref
    · simp only [updateFirstOrientation, if_pos h]
      rintro f hf hne
      rcases List.mem_cons.mp hf with heq | hmem
      · exfalso
        apply hne
        rw [heq]
        exact h
      · exact List.mem_cons_of_mem _ hmem
    · simp only [updateFirstOrientation, if_neg h]
      rintro f hf hne
      rcases List.mem_cons.mp hf with heq | hmem
      · rw [heq]; exact List.mem_cons_self _ _
      · exact List.mem_cons_of_mem _ (ih f hmem hne)

/-- C9: whenever the placement evaluator returns, the live board it
leaves behind is the input board with the target footprint reoriented to
the last tested angle, 270 degrees (stored by the engine as -90, the
same angle modulo a full turn); the original angle is not restored, and
no other footprint is changed in any way.  The concrete sweep instance
exhibits the -90 left in place. -/
theorem C9_sweep_mutates_orientation_in_place :
    (∀ (board : Board) (ref : String) (mc : Option ℚ) (fs : List Finding)
        (tr : List (String × String)) (bEnd : Board),
      check_module_status_by_angles board ref mc = Except.ok (fs, tr, bEnd) →
        bEnd = board.setFootprintOrientation ref 270 ∧
        (∃ modEnd, bEnd.findFootprintByReference ref = some modEnd ∧
          modEnd.orientation = normalize180 270 ∧
          ∃ k : ℤ, (270 : ℚ) - modEnd.orientation = 360 * k) ∧
        ∀ f ∈ bEnd.footprints, f.reference ≠ ref → f ∈ board.footprints) ∧
    normalize180 270 = -90 ∧
    (∃ fs tr, check_module_status_by_angles boardSweepSolo "U1" none =
      Except.ok (fs, tr,
        { footprints := [fpGapAEnd], drawings := [], nets := []
          boundingBox := { x := 0, y := 0, w := 0, h := 0 } })) ∧
    fpGapAEnd.orientation = -90 := by
  refine ⟨?_, normalize180_three_quarters, ?_, rfl⟩
  · intro board ref mc fs tr bEnd h
    obtain ⟨b1, b2, b3, b4, f1, f2, f3, f4, i1, i2, i3, i4,
      h1, h2, h3, h4, hfs, htr, hb⟩ := sweep_unfold board ref mc fs tr bEnd h
    have e1 := (sweepStep_ok _ _ _ _ _ _ _ h1).1
    have e2 := (sweepStep_ok _ _ _ _ _ _ _ h2).1
    have e3 := (sweepStep_ok _ _ _ _ _ _ _ h3).1
    have e4 := (sweepStep_ok _ _ _ _ _ _ _ h4).1
    have hEnd : bEnd = board.setFootprintOrientation ref 270 := by
      rw [hb, e4, e3, e2, e1,
        setOrientation_setOrientation, setOrientation_setOrientation,
        setOrientation_setOrientation]
    refine ⟨hEnd, ?_, ?_⟩
    · obtain ⟨mod1, overlapped, alignment, hfind1, -, -, -⟩ :=
        (sweepStep_ok _ _ _ _ _ _ _ h1).2.2
      rw [e1, findFootprint_setOrientation] at hfind1
      cases hf0 : board.findFootprintByReference ref with
      | none => rw [hf0] at hfind1; simp at hfind1
      | some mod0 =>
        refine ⟨setOrientationDegrees mod0 270, ?_, rfl, 1, ?_⟩
        · rw [hEnd, findFootprint_setOrientation, hf0]
          rfl
        · show (270 : ℚ) - (setOrientationDegrees mod0 270).orientation = 360 * 1
          have : (setOrientationDegrees mod0 270).orientation = normalize180 270 := rfl
          rw [this, normalize180_three_quarters]
          norm_num
    · intro f hf hne
      rw [hEnd] at hf
      exact mem_updateFirst_of_ne ref 270 board.footprints f hf hne
  · refine ⟨[{ angle := 0, severity := Severity.info },
      { angle := 90, severity := Severity.info },
      { angle := 180, severity := Severity.info },
      { angle := 270, severity := Severity.info }], [], ?_⟩
    norm_num [check_module_status_by_angles, sweepAngles, sweepStep,
      Board.setFootprintOrientation, updateFirstOrientation, setOrientationDegrees,
      Board.findFootprintByReference, List.find?, check_module_clearance, overlapLoop,
      get_footprint_courtyard, Rect.inflate, Rect.intersects, check_pad2pad_connection,
      pad2pad_connections, pad2padLoop, check_segments_intersect,
      normalize180_zero, normalize180_ninety, normalize180_half_turn,
      normalize180_three_quarters, boardSweepSolo, fpGapA, fpGapAEnd, rectGapA]

/-! ### The on-board check -/

theorem onboardFootprintLoop_error (boardCy : Rect) (l : List Footprint)
    (h : ∃ m ∈ l, get_footprint_courtyard m = none) :
    onboardFootprintLoop boardCy l = Except.error onboardNoneCourtyardMsg := by
  induction l with
  | nil => simp at h
  | cons m rest ih =>
    obtain ⟨m0, hm0, hnone⟩ := h
    rcases List.mem_cons.mp hm0 with heq | hmem
    · subst heq
      unfold onboardFootprintLoop
      rw [hnone]
    · unfold onboardFootprintLoop
      cases hc : get_footprint_courtyard m with
      | none => rfl
      | some cy =>
        dsimp only
        rw [ih ⟨m0, hmem, hnone⟩]

theorem onboardFootprintLoop_ok (boardCy : Rect) (l : List Footprint)
    (h : ∀ m ∈ l, (get_footprint_courtyard m).isSome) :
    ∃ fpV, onboardFootprintLoop boardCy l = Except.ok fpV ∧
      ∀ v, v ∈ fpV ↔ ∃ m ∈ l, ∃ cy, get_footprint_courtyard m = some cy ∧
        boardCy.contains cy = false ∧
        v = OnboardViolation.footprint m.reference cy.w cy.h m.posX m.posY := by
  induction l with
  | nil => exact ⟨[], rfl, by simp⟩
  | cons m rest ih =>
    obtain ⟨tail, htail, hmem⟩ := ih (fun x hx => h x (List.mem_cons_of_mem _ hx))
    have hm := h m (List.mem_cons_self _ _)
    cases hc : get_footprint_courtyard m with
    | none => rw [hc] at hm; simp at hm
    | some cy =>
      by_cases hcont : boardCy.contains cy = true
      · refine ⟨tail, ?_, ?_⟩
        · unfold onboardFootprintLoop
          rw [hc]
          dsimp only
          rw [htail]
          dsimp only
          rw [if_pos hcont]
        · intro v
          rw [hmem v]
          constructor
          · rintro ⟨m0, hm0, rest2⟩
            exact ⟨m0, List.mem_cons_of_mem _ hm0, rest2⟩
          · rintro ⟨m0, hm0, cy0, hcy0, hcont0, hv⟩
            rcases List.mem_cons.mp hm0 with heq | hmem0
            · subst heq
              rw [hc] at hcy0
              have hcy := Option.some.inj hcy0
              subst hcy
              rw [hcont] at hcont0
              simp at hcont0
            · exact ⟨m0, hmem0, cy0, hcy0, hcont0, hv⟩
      · have hcontf : boardCy.contains cy = false := by
          cases hcf : boardCy.contains cy with
          | true => exact absurd hcf hcont
          | false => rfl
        refine ⟨OnboardViolation.footprint m.reference cy.w cy.h m.posX m.posY :: tail, ?_, ?_⟩
        · unfold onboardFootprintLoop
          rw [hc]
          dsimp only
          rw [htail]
          dsimp only
          rw [if_neg hcont]
        · intro v
          rw [List.mem_cons, hmem v]
          constructor
          · rintro (heq | ⟨m0, hm0, rest2⟩)
            · exact ⟨m, List.mem_cons_self _ _, cy, hc, hcontf, heq⟩
            · exact ⟨m0, List.mem_cons_of_mem _ hm0, rest2⟩
          · rintro ⟨m0, hm0, cy0, hcy0, hcont0, hv⟩
            rcases List.mem_cons.mp hm0 with heq | hmem0
            · subst heq
              rw [hc] at hcy0
              have hcy := Option.some.inj hcy0
              subst hcy
              exact Or.inl hv
            · exact Or.inr ⟨m0, hmem0, cy0, hcy0, hcont0, hv⟩

/-- The board outline drawing of the on-board instances: a 100 by 100
outline at the origin on Edge_Cuts. -/
def outlineDrawing : BoardGraphic :=
  { layer := Layer.edgeCuts, kind := DrawKind.shape "Rect"
    bbox := { x := 0, y := 0, w := 100, h := 100 }, posX := 0, posY := 0 }

/-- A footprint without courtyard graphics, placed well inside the
outline. -/
def fpNoCourtyard : Footprint :=
  { reference := "U1", posX := 5, posY := 5, orientation := 0, locked := false
    graphics := [], pads := [] }

/-- A footprint with a defined courtyard placed far outside the
outline. -/
def fpOffBoard : Footprint :=
  { reference := "U2", posX := 201, posY := 201, orientation := 0, locked := false
    graphics := [{ layer := Layer.fCrtYd, bbox := { x := 200, y := 200, w := 2, h := 2 } }]
    pads := [] }

/-- Board carrying both the courtyard-less footprint and the off-board
footprint. -/
def boardOnboardCex : Board :=
  { footprints := [fpNoCourtyard, fpOffBoard], drawings := [outlineDrawing], nets := []
    boundingBox := { x := 0, y := 0, w := 0, h := 0 } }

/-- The same board without the courtyard-less footprint. -/
def boardOnboardOk : Board :=
  { footprints := [fpOffBoard], drawings := [outlineDrawing], nets := []
    boundingBox := { x := 0, y := 0, w := 0, h := 0 } }

/-- C5 counterexample: on boardOnboardCex the footprint U1 has an
undefined courtyard and U2 has a defined courtyard lying outside the
outline, yet the check does not skip U1 and report U2: it returns the
error list of the blanket except handler, so no violation list is
returned at all. -/
theorem C5_counterexample_undefined_courtyard_aborts :
    get_footprint_courtyard fpNoCourtyard = none ∧
    get_footprint_courtyard fpOffBoard = some { x := 200, y := 200, w := 2, h := 2 } ∧
    get_board_courtyard boardOnboardCex = some { x := 0, y := 0, w := 100, h := 100 } ∧
    Rect.contains { x := 0, y := 0, w := 100, h := 100 } { x := 200, y := 200, w := 2, h := 2 }
      = false ∧
    check_board_onboard_violations boardOnboardCex = Except.error onboardNoneCourtyardMsg := by
  refine ⟨rfl, rfl, rfl, ?_, ?_⟩
  · norm_num [Rect.contains]
  · norm_num [check_board_onboard_violations, get_board_courtyard, boardOnboardCex,
      outlineDrawing, onboardFootprintLoop, fpNoCourtyard, get_footprint_courtyard]

/-- C5 amended: a footprint with an undefined courtyard is not skipped;
it makes the whole on-board check return the single error entry of the
blanket except handler, with every accumulated violation discarded (so
such a footprint indeed never appears in any violation list, but neither
does any other footprint).  Only when every footprint has a defined
courtyard does the check return violations, and then exactly one per
footprint whose courtyard is not contained in the outline, carrying its
size and position. -/
theorem C5_amended_onboard_undefined_courtyard_is_an_abort :
    (∀ (board : Board) (boardCy : Rect),
      get_board_courtyard board = some boardCy →
      ((∃ m ∈ board.footprints, get_footprint_courtyard m = none) →
        check_board_onboard_violations board = Except.error onboardNoneCourtyardMsg) ∧
      ((∀ m ∈ board.footprints, (get_footprint_courtyard m).isSome) →
        ∃ fpV, check_board_onboard_violations board =
            Except.ok (fpV ++ onboardDrawingViolations boardCy board.drawings) ∧
          ∀ v, v ∈ fpV ↔ ∃ m ∈ board.footprints, ∃ cy,
            get_footprint_courtyard m = some cy ∧ boardCy.contains cy = false ∧
            v = OnboardViolation.footprint m.reference cy.w cy.h m.posX m.posY)) ∧
    check_board_onboard_violations boardOnboardOk =
      Except.ok [OnboardViolation.footprint "U2" 2 2 201 201] := by
  constructor
  · intro board boardCy hbc
    constructor
    · intro hnone
      unfold check_board_onboard_violations
      rw [hbc]
      dsimp only
      rw [onboardFootprintLoop_error boardCy board.footprints hnone]
    · intro hall
      obtain ⟨fpV, hloop, hmem⟩ := onboardFootprintLoop_ok boardCy board.footprints hall
      refine ⟨fpV, ?_, hmem⟩
      unfold check_board_onboard_violations
      rw [hbc]
      dsimp only
      rw [hloop]
  · norm_num [check_board_onboard_violations, get_board_courtyard, boardOnboardOk,
      outlineDrawing, onboardFootprintLoop, fpOffBoard, get_footprint_courtyard,
      onboardDrawingViolations, Rect.contains]

/-! ### The power-density calculator -/

theorem footprintAreaSum_error : ∀ (l : List Footprint) (acc : ℚ),
    (∃ m ∈ l, get_footprint_size m = none) →
    footprintAreaSum acc l = Except.error densityTypeErrorMsg := by
  intro l
  induction l with
  | nil => intro acc h; simp at h
  | cons m rest ih =>
    intro acc h
    obtain ⟨m0, hm0, hnone⟩ := h
    rcases List.mem_cons.mp hm0 with heq | hmem
    · subst heq
      unfold footprintAreaSum
      rw [hnone]
    · unfold footprintAreaSum
      cases hs : get_footprint_size m with
      | none => rfl
      | some wh =>
        obtain ⟨w, hh⟩ := wh
        dsimp only
        exact ih _ ⟨m0, hmem, hnone⟩

theorem footprintAreaSum_ok : ∀ (l : List Footprint) (acc : ℚ),
    (∀ m ∈ l, (get_footprint_size m).isSome) →
    ∃ s, footprintAreaSum acc l = Except.ok s := by
  intro l
  induction l with
  | nil => intro acc _; exact ⟨acc, rfl⟩
  | cons m rest ih =>
    intro acc h
    have hm := h m (List.mem_cons_self _ _)
    cases hs : get_footprint_size m with
    | none => rw [hs] at hm; simp at hm
    | some wh =>
      obtain ⟨w, hh⟩ := wh
      obtain ⟨s, hsum⟩ := ih (acc + w * hh) (fun x hx => h x (List.mem_cons_of_mem _ hx))
      refine ⟨s, ?_⟩
      unfold footprintAreaSum
      rw [hs]
      exact hsum

/-- Board whose only footprint has no courtyard graphics, for the
density counterexample. -/
def boardDensityCex : Board :=
  { footprints := [fpNoCourtyard], drawings := [], nets := []
    boundingBox := { x := 0, y := 0, w := 10, h := 10 } }

/-- C6 counterexample: the footprint without courtyard graphics does not
contribute 0 to the area sum; get_footprint_size yields the undefined
marker and the calculator fails with the unhandled type error instead of
returning a report. -/
theorem C6_counterexample_undefined_courtyard_fails :
    get_footprint_size fpNoCourtyard = none ∧
    calculate_power_density boardDensityCex = Except.error densityTypeErrorMsg := by
  constructor
  · rfl
  · norm_num [calculate_power_density, footprintAreaSum, boardDensityCex, fpNoCourtyard,
      get_footprint_size, get_footprint_courtyard]

/-- C6 amended: a footprint with an undefined courtyard makes the
power-density computation fail with a type error (None * None), so the
calculator returns a report exactly when every footprint has a defined
courtyard; an undefined courtyard never silently contributes 0. -/
theorem C6_amended_undefined_courtyard_raises :
    (∀ board : Board, (∃ m ∈ board.footprints, get_footprint_size m = none) →
      calculate_power_density board = Except.error densityTypeErrorMsg) ∧
    (∀ board : Board, (∀ m ∈ board.footprints, (get_footprint_size m).isSome) →
      ∃ rep, calculate_power_density board = Except.ok rep) := by
  constructor
  · intro board hnone
    unfold calculate_power_density
    rw [footprintAreaSum_error board.footprints 0 hnone]
  · intro board hall
    obtain ⟨s, hs⟩ := footprintAreaSum_ok board.footprints 0 hall
    unfold calculate_power_density
    rw [hs]
    exact ⟨_, rfl⟩

/-- Footprint with a 5 by 8 courtyard (area 40). -/
def fpDense40 : Footprint :=
  { reference := "U1", posX := 0, posY := 0, orientation := 0, locked := false
    graphics := [{ layer := Layer.fCrtYd, bbox := { x := 0, y := 0, w := 5, h := 8 } }]
    pads := [] }

/-- Footprint with a 4 by 5 courtyard (area 20). -/
def fpDense20 : Footprint :=
  { reference := "U1", posX := 0, posY := 0, orientation := 0, locked := false
    graphics := [{ layer := Layer.fCrtYd, bbox := { x := 0, y := 0, w := 4, h := 5 } }]
    pads := [] }

/-- Board with footprint area 40 against bounding-box area 80. -/
def boardDense50 : Board :=
  { footprints := [fpDense40], drawings := [], nets := []
    boundingBox := { x := 0, y := 0, w := 10, h := 8 } }

/-- Board with footprint area 20 against bounding-box area 80. -/
def boardDense25 : Board :=
  { footprints := [fpDense20], drawings := [], nets := []
    boundingBox := { x := 0, y := 0, w := 10, h := 8 } }

/-- C7: the power-density report divides the summed footprint area by
the board area the engine bounding box yields, times 100, and classifies
against the fixed threshold 40: below 40 the loose-placement warning,
otherwise the placed-appropriately message; concretely 40 over 80 gives
50 percent and the appropriate message, 20 over 80 gives 25 percent and
the warning. -/
theorem C7_density_forty_percent_threshold :
    (∀ (board : Board) (rep : DensityReport),
      calculate_power_density board = Except.ok rep →
        (rep.boardArea > 0 → rep.powerDensity = rep.footprintArea / rep.boardArea * 100) ∧
        (rep.powerDensity < 40 → rep.info = looseMsg) ∧
        (¬ rep.powerDensity < 40 → rep.info = appropriateMsg)) ∧
    calculate_power_density boardDense50 =
      Except.ok { footprintArea := 40, boardArea := 80, powerDensity := 50
                  info := appropriateMsg } ∧
    calculate_power_density boardDense25 =
      Except.ok { footprintArea := 20, boardArea := 80, powerDensity := 25
                  info := looseMsg } := by
  refine ⟨?_, ?_, ?_⟩
  · intro board rep h
    unfold calculate_power_density at h
    cases hsum : footprintAreaSum 0 board.footprints with
    | error e => rw [hsum] at h; simp at h
    | ok fpArea =>
      rw [hsum] at h
      dsimp only at h
      simp only [Except.ok.injEq] at h
      subst h
      refine ⟨?_, ?_, ?_⟩
      · intro hpos
        dsimp only at hpos ⊢
        rw [if_pos hpos]
      · intro h40
        dsimp only at h40 ⊢
        rw [if_pos h40]
      · intro h40
        dsimp only at h40 ⊢
        rw [if_neg h40]
  · norm_num [calculate_power_density, footprintAreaSum, boardDense50, fpDense40,
      get_footprint_size, get_footprint_courtyard]
  · norm_num [calculate_power_density, footprintAreaSum, boardDense25, fpDense20,
      get_footprint_size, get_footprint_courtyard]

/-- The empty board with a degenerate bounding box. -/
def boardZeroArea : Board :=
  { footprints := [], drawings := [], nets := []
    boundingBox := { x := 0, y := 0, w := 0, h := 0 } }

/-- C10: when the engine bounding box has zero area (and the area sum
itself is computable, every footprint having a defined courtyard), the
calculator does not divide: the guard board_area greater than 0 routes
the density to the literal 0, and a report is still returned, tagged
with the loose-placement text since 0 is below the threshold. -/
theorem C10_zero_board_area_yields_zero_density :
    (∀ board : Board, (∀ m ∈ board.footprints, (get_footprint_size m).isSome) →
      board.boundingBox.w * board.boundingBox.h = 0 →
      ∃ rep, calculate_power_density board = Except.ok rep ∧ rep.powerDensity = 0 ∧
        rep.info = looseMsg) ∧
    calculate_power_density boardZeroArea =
      Except.ok { footprintArea := 0, boardArea := 0, powerDensity := 0
                  info := looseMsg } := by
  constructor
  · intro board hall hzero
    obtain ⟨s, hs⟩ := footprintAreaSum_ok board.footprints 0 hall
    unfold calculate_power_density
    rw [hs]
    dsimp only
    rw [hzero]
    have hng : ¬((0 : ℚ) > 0) := by norm_num
    rw [if_neg hng]
    rw [if_pos (by norm_num : (0 : ℚ) < 40)]
    exact ⟨_, rfl, rfl, rfl⟩
  · norm_num [calculate_power_density, footprintAreaSum, boardZeroArea, looseMsg]

end PCBCheck
